import Mathlib

/-!
Verification of the formula expression language of the robot-hand-controller
repository (file `src/unnamed/part_002`, the `FormulaParser` module).

The tokenizer and recursive-descent parser are embedded as computable Lean
functions on `List Char` / `List Token`.  Numeric literals are scanned into
exact decimals (the scanned strings are plain decimal literals, for which
`parseFloat` is exact up to float rounding, abstracted here as `Decimal`).

The evaluator works over `JsNumber := Option ℝ`: `some r` models an ordinary
finite JavaScript number and `none` models `NaN`.  `NaN` can arise inside the
engine in exactly one place, the `normalize` helper, which divides the
components of a vector by its length without guarding against a zero length
(in JavaScript `0 / 0` is `NaN`); every arithmetic operation and comparison
propagates or rejects `NaN` exactly as JavaScript does.  All other real
arithmetic is modelled exactly on `ℝ`.

Errors thrown by the JavaScript code are modelled structurally by the
`FormulaError` inductive, one constructor per distinct `throw` site.
-/

namespace RobotHand

/-- Characters stripped by the tokenizer's leading `replace(/\s+/g, '')`,
matching the core JavaScript whitespace class. -/
def isJsWhitespace (c : Char) : Bool :=
  c == ' ' || c == '\t' || c == '\n' || c == '\r' || c == '\x0b' || c == '\x0c'

/-- Characters allowed in an identifier after its first letter:
the JavaScript class `[a-zA-Z0-9_\[\]]`. -/
def isIdentChar (c : Char) : Bool :=
  c.isAlpha || c.isDigit || c == '_' || c == '[' || c == ']'

/-- Characters scanned as part of a numeric literal: digits and the dot. -/
def isNumChar (c : Char) : Bool :=
  c.isDigit || c == '.'

/-- Value of a digit run, most significant digit first. -/
def digitsToNat (ds : List Char) : ℕ :=
  ds.foldl (fun acc c => acc * 10 + (c.toNat - '0'.toNat)) 0

/-- Exact value of a scanned decimal literal, `mantissa / 10 ^ exponent`.
The scanner only ever feeds `parseFloat` digit-led decimal strings, for which
the parsed value is exactly of this shape; keeping mantissa and exponent
(rather than a normalized `ℚ`) makes token and AST equality kernel-decidable.
-/
structure Decimal where
  mantissa : ℕ
  exponent : ℕ
deriving DecidableEq, Repr

/-- The real number a scanned literal denotes. -/
noncomputable def Decimal.toReal (d : Decimal) : ℝ :=
  (d.mantissa : ℝ) / 10 ^ d.exponent

/-- JavaScript `parseFloat` on a scanned numeric run (which always starts with
a digit): the leading digit run is the integer part; if a dot follows, the
digit run after it is the fractional part; everything after that is ignored
(`parseFloat("1.2.3") = 1.2`, `parseFloat("1..2") = 1`). -/
def parseFloat (s : List Char) : Decimal :=
  let intPart := s.takeWhile Char.isDigit
  let rest := s.dropWhile Char.isDigit
  let fracPart :=
    match rest with
    | '.' :: r => r.takeWhile Char.isDigit
    | _ => []
  ⟨digitsToNat intPart * 10 ^ fracPart.length + digitsToNat fracPart,
   fracPart.length⟩

/-- Tokens produced by `tokenize`, mirroring the source's
`{type, value}` records (`var` stands for the source's `variable` type). -/
inductive Token where
| number (value : Decimal)
| operator (value : Char)
| function (value : String)
| var (value : String)
| comma
deriving DecidableEq, Repr

/-- Loop body of `tokenize` (the source's `while (i < formula.length)` loop).
One unit of `fuel` is spent per loop iteration; every iteration consumes at
least one character, so `fuel := s.length` always suffices, and the `fuel = 0`
fallback is unreachable when `tokenizeLoop` is entered through `tokenize`. -/
def tokenizeLoop : ℕ → List Char → List Token
  | 0, _ => []
  | _ + 1, [] => []
  | fuel + 1, c :: rest =>
    if c.isDigit then
      Token.number (parseFloat ((c :: rest).takeWhile isNumChar)) ::
        tokenizeLoop fuel ((c :: rest).dropWhile isNumChar)
    else if c = '+' ∨ c = '-' ∨ c = '*' ∨ c = '/' ∨ c = '(' ∨ c = ')' then
      Token.operator c :: tokenizeLoop fuel rest
    else if c.isAlpha then
      (match (c :: rest).dropWhile isIdentChar with
       | '(' :: _ => Token.function ⟨(c :: rest).takeWhile isIdentChar⟩
       | _ => Token.var ⟨(c :: rest).takeWhile isIdentChar⟩) ::
        tokenizeLoop fuel ((c :: rest).dropWhile isIdentChar)
    else if c = ',' then
      Token.comma :: tokenizeLoop fuel rest
    else
      tokenizeLoop fuel rest

/-- The source `tokenize`: strip all whitespace, then scan. -/
def tokenize (formula : String) : List Token :=
  tokenizeLoop (formula.data.filter (fun c => ¬ isJsWhitespace c)).length
    (formula.data.filter (fun c => ¬ isJsWhitespace c))

/-- AST nodes, one constructor per `type` tag of the source
(`var` stands for the source's `variable` tag). -/
inductive AST where
| number (value : Decimal)
| binary (operator : Char) (left right : AST)
| unary (operator : Char) (expression : AST)
| function (name : String) (arguments : List AST)
| var (name : String)
deriving Repr

/-- Structural model of every `throw new Error(...)` site of the module,
one constructor per distinct message shape. -/
inductive FormulaError where
| emptyFormula
| unexpectedEnd
| missingClosingParen
| missingClosingParenFunc (name : String)
| expectedOpenParen (name : String)
| unexpectedToken (t : Token)
| trailingToken (t : Token)
| invalidFormula
| divisionByZero
| unknownOperator (op : Char)
| unknownUnaryOperator (op : Char)
| wrongArgCount (message : String)
| invalidLandmark
| unknownFunction (name : String)
| unknownVariable (name : String)
| outOfFuel
deriving DecidableEq, Repr

/-!
Recursive-descent parser, one Lean function per source parse function.
The source functions recurse through a shared mutable `position` that moves
strictly forward; here each function takes the remaining tokens and returns
the unconsumed suffix.  One unit of `fuel` is spent per nested call, so the
call depth of the source is an upper bound for the fuel needed;
`parse` supplies `4 * tokens.length + 8`, which always suffices because every
descent of four levels consumes at least one token.  The `outOfFuel` error is
unreachable from `parse`.
-/
mutual

/-- The source `parsePrimary`: number, parenthesized expression, function
call, variable, or unary minus (which binds to a single `Primary`). -/
def parsePrimary : ℕ → List Token → Except FormulaError (AST × List Token)
  | 0, _ => .error .outOfFuel
  | fuel + 1, ts =>
    match ts with
    | [] => .error .unexpectedEnd
    | Token.number v :: rest => .ok (AST.number v, rest)
    | Token.operator '(' :: rest =>
      match parseAdditive fuel rest with
      | .error e => .error e
      | .ok (expr, ts2) =>
        match ts2 with
        | Token.operator ')' :: rest2 => .ok (expr, rest2)
        | _ => .error .missingClosingParen
    | Token.function name :: rest =>
      match rest with
      | Token.operator '(' :: rest2 =>
        match rest2 with
        | Token.operator ')' :: rest3 => .ok (AST.function name [], rest3)
        | [] => .error (.missingClosingParenFunc name)
        | _ =>
          match parseAdditive fuel rest2 with
          | .error e => .error e
          | .ok (arg1, ts2) =>
            match parseArgsLoop fuel [arg1] ts2 with
            | .error e => .error e
            | .ok (args, ts3) =>
              match ts3 with
              | Token.operator ')' :: rest3 => .ok (AST.function name args, rest3)
              | _ => .error (.missingClosingParenFunc name)
      | _ => .error (.expectedOpenParen name)
    | Token.var name :: rest => .ok (AST.var name, rest)
    | Token.operator '-' :: rest =>
      match parsePrimary fuel rest with
      | .error e => .error e
      | .ok (expr, ts2) => .ok (AST.unary '-' expr, ts2)
    | t :: _ => .error (.unexpectedToken t)

/-- The argument loop of the source `parsePrimary`'s function-call case:
`while (peek().type === 'comma') { consume(); args.push(parseExpression()); }`.
-/
def parseArgsLoop : ℕ → List AST → List Token →
    Except FormulaError (List AST × List Token)
  | 0, _, _ => .error .outOfFuel
  | fuel + 1, acc, ts =>
    match ts with
    | Token.comma :: rest =>
      match parseAdditive fuel rest with
      | .error e => .error e
      | .ok (arg, ts2) => parseArgsLoop fuel (acc ++ [arg]) ts2
    | _ => .ok (acc, ts)

/-- The source `parseMultiplicative`: a `parsePrimary`, then the
`while` loop folding `*` and `/` left-associatively. -/
def parseMultiplicative : ℕ → List Token →
    Except FormulaError (AST × List Token)
  | 0, _ => .error .outOfFuel
  | fuel + 1, ts =>
    match parsePrimary fuel ts with
    | .error e => .error e
    | .ok (left, ts2) => parseMulLoop fuel left ts2

/-- The `while` loop of `parseMultiplicative`. -/
def parseMulLoop : ℕ → AST → List Token →
    Except FormulaError (AST × List Token)
  | 0, _, _ => .error .outOfFuel
  | fuel + 1, left, ts =>
    match ts with
    | Token.operator '*' :: rest =>
      match parsePrimary fuel rest with
      | .error e => .error e
      | .ok (right, ts2) => parseMulLoop fuel (AST.binary '*' left right) ts2
    | Token.operator '/' :: rest =>
      match parsePrimary fuel rest with
      | .error e => .error e
      | .ok (right, ts2) => parseMulLoop fuel (AST.binary '/' left right) ts2
    | _ => .ok (left, ts)

/-- The source `parseAdditive`: a `parseMultiplicative`, then the
`while` loop folding `+` and `-` left-associatively. -/
def parseAdditive : ℕ → List Token → Except FormulaError (AST × List Token)
  | 0, _ => .error .outOfFuel
  | fuel + 1, ts =>
    match parseMultiplicative fuel ts with
    | .error e => .error e
    | .ok (left, ts2) => parseAddLoop fuel left ts2

/-- The `while` loop of `parseAdditive`. -/
def parseAddLoop : ℕ → AST → List Token →
    Except FormulaError (AST × List Token)
  | 0, _, _ => .error .outOfFuel
  | fuel + 1, left, ts =>
    match ts with
    | Token.operator '+' :: rest =>
      match parseMultiplicative fuel rest with
      | .error e => .error e
      | .ok (right, ts2) => parseAddLoop fuel (AST.binary '+' left right) ts2
    | Token.operator '-' :: rest =>
      match parseMultiplicative fuel rest with
      | .error e => .error e
      | .ok (right, ts2) => parseAddLoop fuel (AST.binary '-' left right) ts2
    | _ => .ok (left, ts)

end

/-- The source `parse`: parse one full expression, then reject any
unconsumed trailing token. -/
def parse (tokens : List Token) : Except FormulaError AST :=
  match parseAdditive (4 * tokens.length + 8) tokens with
  | .error e => .error e
  | .ok (ast, rest) =>
    match rest with
    | [] => .ok ast
    | t :: _ => .error (.trailingToken t)

/-- A hand landmark record as built by `convertLandmarks`: 2D display
coordinates `x, y, z` (mirrored, normalized screen space) and 3D metric
coordinates `x3D, y3D, z3D`. -/
structure Landmark where
  x : ℝ
  y : ℝ
  z : ℝ
  x3D : ℝ
  y3D : ℝ
  z3D : ℝ

/-- The evaluation context `{ landmarks }`: `none` models an absent
(`undefined`/`null`) landmark array. -/
structure Context where
  landmarks : Option (List Landmark)

/-- A JavaScript number as the evaluator sees it: `some r` is a finite number
modelled exactly as a real, `none` is `NaN`.  `NaN` enters only through
`normalize` applied to the zero vector (`0 / 0` in JavaScript) and then
propagates through arithmetic; infinities are unreachable (the only unguarded
division is in `normalize`, whose numerators are zero whenever its
denominator is). -/
abbrev JsNumber := Option ℝ

/-- JavaScript `+` on evaluator values: `NaN` absorbs. -/
noncomputable def jsAdd : JsNumber → JsNumber → JsNumber
  | some a, some b => some (a + b)
  | _, _ => none

/-- JavaScript `-` on evaluator values: `NaN` absorbs. -/
noncomputable def jsSub : JsNumber → JsNumber → JsNumber
  | some a, some b => some (a - b)
  | _, _ => none

/-- JavaScript `*` on evaluator values: `NaN` absorbs. -/
noncomputable def jsMul : JsNumber → JsNumber → JsNumber
  | some a, some b => some (a * b)
  | _, _ => none

/-- JavaScript `/` on evaluator values with nonzero divisor: `NaN` absorbs.
The evaluator guards the zero-divisor case, so real division is exact here. -/
noncomputable def jsDiv : JsNumber → JsNumber → JsNumber
  | some a, some b => some (a / b)
  | _, _ => none

/-- JavaScript unary `-`: `NaN` absorbs. -/
noncomputable def jsNeg : JsNumber → JsNumber
  | some a => some (-a)
  | none => none

/-- JavaScript `<=` on evaluator values: any comparison with `NaN` is false. -/
def jsLe : JsNumber → JsNumber → Prop
  | some a, some b => a ≤ b
  | _, _ => False

/-- JavaScript `<` on evaluator values: any comparison with `NaN` is false. -/
def jsLt : JsNumber → JsNumber → Prop
  | some a, some b => a < b
  | _, _ => False

open Classical in
/-- JavaScript array indexing `ls[id]` with a numeric index: an element is
returned exactly when `id` is a nonnegative integer below the length,
otherwise the access yields `undefined` (here `none`). -/
noncomputable def jsIndex (ls : List Landmark) : JsNumber → Option Landmark
  | none => none
  | some r => if h : ∃ n : ℕ, (n : ℝ) = r then ls[h.choose]? else none

open Classical in
/-- The source `getLandmark`: `null` when the landmark array is absent or the
id is out of `[0, 20]`, otherwise the array access (which itself yields
`undefined` for fractional ids or an array shorter than the id). -/
noncomputable def getLandmark (id : JsNumber) (ctx : Context) : Option Landmark :=
  match ctx.landmarks with
  | none => none
  | some ls =>
    if jsLt id (some 0) ∨ jsLt (some 20) id then none
    else jsIndex ls id

/-- The source `calculateDistance`: Euclidean distance on the 3D metric
coordinates. -/
noncomputable def calculateDistance (landmark1 landmark2 : Landmark) : ℝ :=
  Real.sqrt ((landmark1.x3D - landmark2.x3D) * (landmark1.x3D - landmark2.x3D) +
    (landmark1.y3D - landmark2.y3D) * (landmark1.y3D - landmark2.y3D) +
    (landmark1.z3D - landmark2.z3D) * (landmark1.z3D - landmark2.z3D))

/-- A 3-vector, as the plain `{x, y, z}` records of the source. -/
structure Vec where
  x : ℝ
  y : ℝ
  z : ℝ

/-- The source `toVector`: note it reads the landmarks' `x`, `y`, `z` fields
(the 2D display coordinates), not `x3D`, `y3D`, `z3D`. -/
def toVector (a b : Landmark) : Vec :=
  ⟨b.x - a.x, b.y - a.y, b.z - a.z⟩

/-- The source `normalize`: divides each component by
`Math.hypot(x, y, z) = sqrt(x^2 + y^2 + z^2)`.  A zero-length input (which in
the evaluator is always the zero vector) makes every component `0 / 0 = NaN`
in JavaScript, modelled by `none`. -/
noncomputable def normalize (v : Vec) : Option Vec :=
  let length := Real.sqrt (v.x ^ 2 + v.y ^ 2 + v.z ^ 2)
  if length = 0 then none
  else some ⟨v.x / length, v.y / length, v.z / length⟩

/-- The source `crossProduct` local of `rotation`. -/
def crossProduct (v1 v2 : Vec) : Vec :=
  ⟨v1.y * v2.z - v1.z * v2.y, v1.z * v2.x - v1.x * v2.z,
   v1.x * v2.y - v1.y * v2.x⟩

/-- The source `dotProduct` local of `rotation`. -/
def dotProduct (v1 v2 : Vec) : ℝ :=
  v1.x * v2.x + v1.y * v2.y + v1.z * v2.z

/-- The source `rotation`: plane normal of the two edge vectors, normalized,
then `acos(dot) * 180 / pi`.  For a unit normal the dot product with the unit
`direction` lies in `[-1, 1]`, where `Real.arccos` and `Math.acos` agree; a
`NaN` normal (degenerate cross product) gives a `NaN` angle. -/
noncomputable def rotation (landmark1 landmark2 landmark3 : Landmark)
    (direction : Vec) : JsNumber :=
  let v1 := toVector landmark1 landmark2
  let v2 := toVector landmark1 landmark3
  match normalize (crossProduct v1 v2) with
  | none => none
  | some normal => some (Real.arccos (dotProduct normal direction) * (180 / Real.pi))

/-- Match of the source regex `^L\[(\d+)\]\.([xyz])$` against a variable
name, returning the landmark id and the axis letter. -/
def matchCoordDot (s : List Char) : Option (ℕ × Char) :=
  match s with
  | 'L' :: '[' :: rest =>
    let ds := rest.takeWhile Char.isDigit
    if ds.isEmpty then none
    else
      match rest.dropWhile Char.isDigit with
      | ']' :: '.' :: [a] =>
        if a = 'x' ∨ a = 'y' ∨ a = 'z' then some (digitsToNat ds, a) else none
      | _ => none
  | _ => none

/-- Match of the source regex `^L([xyz])\[(\d+)\]$` against a variable name,
returning the axis letter and the landmark id. -/
def matchAxisBracket (s : List Char) : Option (Char × ℕ) :=
  match s with
  | 'L' :: a :: '[' :: rest =>
    if a = 'x' ∨ a = 'y' ∨ a = 'z' then
      let ds := rest.takeWhile Char.isDigit
      if ds.isEmpty then none
      else
        match rest.dropWhile Char.isDigit with
        | [']'] => some (a, digitsToNat ds)
        | _ => none
    else none
  | _ => none

/-- The source field access `landmark[coord + "3D"]` for an axis letter that
the regexes constrain to `x`, `y` or `z`. -/
def coord3D (a : Char) (lm : Landmark) : ℝ :=
  if a = 'x' then lm.x3D else if a = 'y' then lm.y3D else lm.z3D

/-- The source `getVariableValue`: the two landmark-coordinate syntaxes, both
reading the 3D coordinate, and an unknown-variable error otherwise. -/
noncomputable def getVariableValue (name : String) (ctx : Context) :
    Except FormulaError JsNumber :=
  match matchCoordDot name.data with
  | some (id, a) =>
    match getLandmark (some (id : ℝ)) ctx with
    | some lm => .ok (some (coord3D a lm))
    | none => .error .invalidLandmark
  | none =>
    match matchAxisBracket name.data with
    | some (a, id) =>
      match getLandmark (some (id : ℝ)) ctx with
      | some lm => .ok (some (coord3D a lm))
      | none => .error .invalidLandmark
    | none => .error (.unknownVariable name)

open Classical in
/-- The `map` branch of the evaluator: clamp at the input bounds, otherwise
linear interpolation.  All comparisons are JavaScript comparisons (false on
`NaN`). -/
noncomputable def mapFunction
    (value domain1Min domain1Max domain2Min domain2Max : JsNumber) : JsNumber :=
  if jsLe value domain1Min then domain2Min
  else if jsLe domain1Max value then domain2Max
  else
    jsAdd domain2Min
      (jsMul (jsDiv (jsSub value domain1Min) (jsSub domain1Max domain1Min))
        (jsSub domain2Max domain2Min))

mutual

/-- The source `evaluate(ast, context)`: one case per AST node type, with the
exact error at each `throw` site.  Function arguments are evaluated left to
right before dispatch. -/
noncomputable def evalAst : AST → Context → Except FormulaError JsNumber
  | AST.number v, _ => .ok (some v.toReal)
  | AST.binary op l r, ctx =>
    match evalAst l ctx with
    | .error e => .error e
    | .ok left =>
      match evalAst r ctx with
      | .error e => .error e
      | .ok right =>
        match op with
        | '+' => .ok (jsAdd left right)
        | '-' => .ok (jsSub left right)
        | '*' => .ok (jsMul left right)
        | '/' =>
          if right = some 0 then .error .divisionByZero
          else .ok (jsDiv left right)
        | _ => .error (.unknownOperator op)
  | AST.unary op e, ctx =>
    match evalAst e ctx with
    | .error er => .error er
    | .ok value =>
      match op with
      | '-' => .ok (jsNeg value)
      | _ => .error (.unknownUnaryOperator op)
  | AST.function name args, ctx =>
    match evalArgs args ctx with
    | .error e => .error e
    | .ok argv =>
      if name = "distance" then
        match argv with
        | [id1, id2] =>
          match getLandmark id1 ctx, getLandmark id2 ctx with
          | some l1, some l2 => .ok (some (calculateDistance l1 l2))
          | _, _ => .error .invalidLandmark
        | _ => .error (.wrongArgCount ("distance function requires exactly 2 arguments"))
      else if name = "rotationY" then
        match argv with
        | [id1, id2, id3] =>
          match getLandmark id1 ctx, getLandmark id2 ctx, getLandmark id3 ctx with
          | some l1, some l2, some l3 => .ok (rotation l1 l2 l3 ⟨0, -1, 0⟩)
          | _, _, _ => .error .invalidLandmark
        | _ => .error (.wrongArgCount ("distance function requires exactly 2 arguments"))
      else if name = "map" then
        match argv with
        | [value, d1min, d1max, d2min, d2max] =>
          .ok (mapFunction value d1min d1max d2min d2max)
        | _ => .error (.wrongArgCount ("map function requires exactly 5 arguments: value, domain_1_min, domain_1_max, domain_2_min, domain_2_max"))
      else .error (.unknownFunction name)
  | AST.var name, ctx => getVariableValue name ctx

/-- Left-to-right evaluation of a function call's argument list
(the source `ast.arguments.map(arg => evaluate(arg, context))`). -/
noncomputable def evalArgs : List AST → Context → Except FormulaError (List JsNumber)
  | [], _ => .ok []
  | a :: as, ctx =>
    match evalAst a ctx with
    | .error e => .error e
    | .ok v =>
      match evalArgs as ctx with
      | .error e => .error e
      | .ok vs => .ok (v :: vs)

end

/-- The constant `CONFIG.MIN_SERVO_VALUE` from `config.js`. -/
def MIN_SERVO_VALUE : ℝ := 0

/-- The constant `CONFIG.MAX_SERVO_VALUE` from `config.js`. -/
def MAX_SERVO_VALUE : ℝ := 1023

/-- JavaScript `formula` being falsy or `formula.trim() === ''`: the string
is empty or all whitespace. -/
def jsTrimEmpty (s : String) : Bool :=
  s.data.all isJsWhitespace

/-- The public `FormulaParser.evaluate(id, formula, landmarks)`:
tokenize, parse, evaluate, then clamp to `[MIN_SERVO_VALUE, max]` — with
`max = 4095` instead of `CONFIG.MAX_SERVO_VALUE` for servo id 11 — and round.
`Math.round` rounds half toward positive infinity, exactly Mathlib's `round`;
`Math.min`, `Math.max` and `Math.round` all map `NaN` to `NaN`, so a `NaN`
result (`none`) is returned unchanged.  Errors are rethrown (the source only
prefixes the message with "Formula error: "). -/
noncomputable def FormulaParser.evaluate (id : ℤ) (formula : String)
    (landmarks : Option (List Landmark)) : Except FormulaError (Option ℤ) :=
  if jsTrimEmpty formula then .error .emptyFormula
  else
    match parse (tokenize formula) with
    | .error e => .error e
    | .ok ast =>
      match evalAst ast ⟨landmarks⟩ with
      | .error e => .error e
      | .ok result =>
        let cap : ℝ := if id = 11 then 4095 else MAX_SERVO_VALUE
        match result with
        | none => .ok none
        | some r => .ok (some (round (max MIN_SERVO_VALUE (min cap r))))

/-- The public `FormulaParser.validate`: false for blank input, otherwise
true exactly when tokenize + parse succeed.  Evaluation is never attempted. -/
def FormulaParser.validate (formula : String) : Bool :=
  if jsTrimEmpty formula then false
  else
    match parse (tokenize formula) with
    | .ok _ => true
    | .error _ => false

/-- Rendering of a token for error messages (the `${token.value}`
interpolation; numeric rendering abbreviated to the mantissa). -/
def Token.render : Token → String
  | Token.number d => toString d.mantissa
  | Token.operator c => String.singleton c
  | Token.function s => s
  | Token.var s => s
  | Token.comma => ","

/-- The message carried by each error, mirroring the source strings. -/
def FormulaError.message : FormulaError → String
  | .emptyFormula => "Empty formula"
  | .unexpectedEnd => "Unexpected end of formula"
  | .missingClosingParen => "Missing closing parenthesis"
  | .missingClosingParenFunc n => "Missing closing parenthesis for function " ++ n
  | .expectedOpenParen n => "Expected ( after function name " ++ n
  | .unexpectedToken t => "Unexpected token: " ++ t.render
  | .trailingToken t => "Unexpected token: " ++ t.render
  | .invalidFormula => "Invalid formula"
  | .divisionByZero => "Division by zero"
  | .unknownOperator op => "Unknown operator: " ++ String.singleton op
  | .unknownUnaryOperator op => "Unknown unary operator: " ++ String.singleton op
  | .wrongArgCount m => m
  | .invalidLandmark => "Invalid landmark ID"
  | .unknownFunction n => "Unknown function: " ++ n
  | .unknownVariable n => "Unknown variable: " ++ n
  | .outOfFuel => "Invalid formula"

/-- The public `FormulaParser.getErrorMessage`: an explicit message for blank
input, `null` (`none`) when tokenize + parse succeed, the error message
otherwise. -/
def FormulaParser.getErrorMessage (formula : String) : Option String :=
  if jsTrimEmpty formula then some ("Empty formula")
  else
    match parse (tokenize formula) with
    | .ok _ => none
    | .error e => some e.message

/-- A landmark sitting at the origin in both coordinate systems. -/
def degenerateLandmark : Landmark := ⟨0, 0, 0, 0, 0, 0⟩

/-- A full hand observation whose 21 landmarks all coincide: the palm
triangle is degenerate, so its cross product is the zero vector. -/
def degenerateLandmarks : List Landmark := List.replicate 21 degenerateLandmark

/-- Landmark at the origin in both coordinate systems. -/
def landmarkO : Landmark := ⟨0, 0, 0, 0, 0, 0⟩

/-- Landmark at display position `(1,0,0)` but 3D metric position
`(0,0,1)`. -/
def landmarkB : Landmark := ⟨1, 0, 0, 0, 0, 1⟩

/-- Landmark at display position `(0,0,1)` but 3D metric position
`(1,0,0)`. -/
def landmarkC : Landmark := ⟨0, 0, 1, 1, 0, 0⟩

/-- A context of 21 landmarks whose display and 3D metric coordinates
disagree at ids 1 and 2. -/
def mixedLandmarks : List Landmark :=
  landmarkO :: landmarkB :: landmarkC :: List.replicate 18 landmarkO

/-- The claim's reading of `rotationY`, stated from the spec's words: the
same cross-product / normalize / `acos(dot) * 180 / pi` pipeline as the
source `rotation`, but with `v1` and `v2` built from the landmarks' 3D
metric coordinates `x3D, y3D, z3D` (the source builds them from the 2D
display fields `x, y, z`). -/
noncomputable def rotationY3DSpec (l1 l2 l3 : Landmark) : ℝ :=
  let v1 : Vec := ⟨l2.x3D - l1.x3D, l2.y3D - l1.y3D, l2.z3D - l1.z3D⟩
  let v2 : Vec := ⟨l3.x3D - l1.x3D, l3.y3D - l1.y3D, l3.z3D - l1.z3D⟩
  let n : Vec := crossProduct v1 v2
  let length := Real.sqrt (n.x ^ 2 + n.y ^ 2 + n.z ^ 2)
  Real.arccos (dotProduct ⟨n.x / length, n.y / length, n.z / length⟩
    ⟨0, -1, 0⟩) * (180 / Real.pi)

/-!
Helper lemmas shared by the claim theorems, followed by the claim theorems
themselves.
-/

/-- On two ordinary numbers `jsLe` is the real comparison. -/
theorem jsLe_some_some (a b : ℝ) : jsLe (some a) (some b) ↔ a ≤ b := Iff.rfl

/-- On two ordinary numbers `jsLt` is the real comparison. -/
theorem jsLt_some_some (a b : ℝ) : jsLt (some a) (some b) ↔ a < b := Iff.rfl

open Classical in
/-- Array access at a natural-number index is plain list lookup. -/
theorem jsIndex_natCast (ls : List Landmark) (n : ℕ) :
    jsIndex ls (some (n : ℝ)) = ls[n]? := by
  show (if h : ∃ m : ℕ, (m : ℝ) = (n : ℝ) then ls[h.choose]? else none) = ls[n]?
  have h : ∃ m : ℕ, (m : ℝ) = (n : ℝ) := ⟨n, rfl⟩
  rw [dif_pos h]
  congr 1
  exact_mod_cast h.choose_spec

open Classical in
/-- Array access at an index that is no natural number yields `undefined`. -/
theorem jsIndex_not_int (ls : List Landmark) (r : ℝ)
    (h : ¬ ∃ n : ℕ, (n : ℝ) = r) : jsIndex ls (some r) = none := by
  show (if h : ∃ n : ℕ, (n : ℝ) = r then ls[h.choose]? else none) = none
  rw [dif_neg h]

open Classical in
/-- At an in-range natural-number id, `getLandmark` is plain list lookup. -/
theorem getLandmark_nat (ls : List Landmark) (r : ℝ) (n : ℕ) (hr : r = n)
    (hn : n ≤ 20) : getLandmark (some r) ⟨some ls⟩ = ls[n]? := by
  subst hr
  show (if jsLt (some (n : ℝ)) (some 0) ∨ jsLt (some 20) (some (n : ℝ)) then none
    else jsIndex ls (some (n : ℝ))) = ls[n]?
  rw [if_neg, jsIndex_natCast]
  rintro (h | h)
  · exact absurd (jsLt_some_some _ _ |>.mp h) (not_lt.mpr (Nat.cast_nonneg n))
  · have h1 := jsLt_some_some _ _ |>.mp h
    have h20 : (n : ℝ) ≤ 20 := by exact_mod_cast hn
    linarith

/-- There is no natural number equal to `3 / 2` in `ℝ`. -/
theorem not_exists_nat_eq_three_halves : ¬ ∃ n : ℕ, (n : ℝ) = 3 / 2 := by
  rintro ⟨n, hn⟩
  have h2 : ((2 * n : ℕ) : ℝ) = 3 := by push_cast; linarith
  have h3 : (2 * n : ℕ) = 3 := by exact_mod_cast h2
  omega

/-- Unfolding of the public `evaluate` once the blank check and the parse are
settled: what remains is the evaluation followed by the clamp-and-round. -/
theorem evaluate_eq (id : ℤ) (f : String) (lms : Option (List Landmark))
    (hb : jsTrimEmpty f = false) (ast : AST)
    (hp : parse (tokenize f) = .ok ast) :
    FormulaParser.evaluate id f lms =
      (match evalAst ast ⟨lms⟩ with
       | .error e => .error e
       | .ok none => .ok none
       | .ok (some r) =>
         .ok (some (round (max MIN_SERVO_VALUE
           (min (if id = 11 then (4095 : ℝ) else MAX_SERVO_VALUE) r))))) := by
  unfold FormulaParser.evaluate
  rw [if_neg (by simp [hb]), hp]
  show (match evalAst ast ⟨lms⟩ with
    | .error e => (.error e : Except FormulaError (Option ℤ))
    | .ok result =>
      let cap : ℝ := if id = 11 then 4095 else MAX_SERVO_VALUE
      match result with
      | none => .ok none
      | some r => .ok (some (round (max MIN_SERVO_VALUE (min cap r))))) = _
  cases evalAst ast ⟨lms⟩ with
  | error e => rfl
  | ok result =>
    cases result with
    | none => rfl
    | some r => rfl

/-- C3: for all five evaluated numeric arguments, `map` returns `outMin` when
`value <= inMin`, else `outMax` when `value >= inMax`, and otherwise the
linear interpolation `outMin + ((value - inMin)/(inMax - inMin)) *
(outMax - outMin)`; in the interior branch `inMin = inMax` is impossible, so
the division is never by zero; and `map(-5,0,10,0,100) = 0`,
`map(15,0,10,0,100) = 100`, `map(5,0,10,0,100) = 50`. -/
theorem map_policy (v a b c d : ℝ) :
    (v ≤ a →
      mapFunction (some v) (some a) (some b) (some c) (some d) = some c) ∧
    (¬ v ≤ a → b ≤ v →
      mapFunction (some v) (some a) (some b) (some c) (some d) = some d) ∧
    (a < v → v < b →
      a ≠ b ∧
      mapFunction (some v) (some a) (some b) (some c) (some d) =
        some (c + (v - a) / (b - a) * (d - c))) ∧
    mapFunction (some (-5)) (some 0) (some 10) (some 0) (some 100) = some 0 ∧
    mapFunction (some 15) (some 0) (some 10) (some 0) (some 100) = some 100 ∧
    mapFunction (some 5) (some 0) (some 10) (some 0) (some 100) = some 50 := by
  refine ⟨?_, ?_, ?_, ?_, ?_, ?_⟩
  · intro h
    unfold mapFunction
    rw [if_pos ((jsLe_some_some v a).mpr h)]
  · intro h1 h2
    unfold mapFunction
    rw [if_neg (fun hh => h1 ((jsLe_some_some v a).mp hh)),
      if_pos ((jsLe_some_some b v).mpr h2)]
  · intro h1 h2
    refine ⟨(h1.trans h2).ne, ?_⟩
    unfold mapFunction
    rw [if_neg (fun hh => absurd ((jsLe_some_some v a).mp hh) (not_le.mpr h1)),
      if_neg (fun hh => absurd ((jsLe_some_some b v).mp hh) (not_le.mpr h2))]
    simp [jsAdd, jsSub, jsMul, jsDiv]
  · unfold mapFunction
    rw [if_pos ((jsLe_some_some _ _).mpr (by norm_num))]
  · unfold mapFunction
    rw [if_neg (fun hh => by have := (jsLe_some_some _ _).mp hh; norm_num at this),
      if_pos ((jsLe_some_some _ _).mpr (by norm_num))]
  · unfold mapFunction
    rw [if_neg (fun hh => by have := (jsLe_some_some _ _).mp hh; norm_num at this),
      if_neg (fun hh => by have := (jsLe_some_some _ _).mp hh; norm_num at this)]
    simp [jsAdd, jsSub, jsMul, jsDiv]
    norm_num

/-- Witness for C3: the interior branch of `map_policy` at
`map(1, 0, 2, 0, 10) = 5`. -/
theorem map_policy_witness :
    mapFunction (some 1) (some 0) (some 2) (some 0) (some 10) = some 5 := by
  have h := (map_policy 1 0 2 0 10).2.2.1 (by norm_num) (by norm_num)
  rw [h.2]
  norm_num

/-- C4: the grammar gives `*` and `/` higher precedence than `+` and `-`,
binary operators associate left-to-right, parentheses override precedence,
and unary minus binds to a single primary; consequently `"2+3*4"` evaluates
to 14, `"(2+3)*4"` to 20, `"-2*3"` parses as `(-2)*3` and evaluates to -6,
and `"-4/2*3"` parses as `((-4)/2)*3` and evaluates to -6. -/
theorem arithmetic_semantics :
    (∀ a b c : Decimal,
      parse [Token.number a, Token.operator '+', Token.number b,
             Token.operator '*', Token.number c] =
      .ok (AST.binary '+' (AST.number a)
        (AST.binary '*' (AST.number b) (AST.number c)))) ∧
    (∀ a b c : Decimal,
      parse [Token.number a, Token.operator '-', Token.number b,
             Token.operator '-', Token.number c] =
      .ok (AST.binary '-' (AST.binary '-' (AST.number a) (AST.number b))
        (AST.number c))) ∧
    (∀ a b c : Decimal,
      parse [Token.operator '(', Token.number a, Token.operator '+',
             Token.number b, Token.operator ')', Token.operator '*',
             Token.number c] =
      .ok (AST.binary '*' (AST.binary '+' (AST.number a) (AST.number b))
        (AST.number c))) ∧
    (∀ a b : Decimal,
      parse [Token.operator '-', Token.number a, Token.operator '*',
             Token.number b] =
      .ok (AST.binary '*' (AST.unary '-' (AST.number a)) (AST.number b))) ∧
    parse (tokenize ("2+3*4")) =
      .ok (AST.binary '+' (AST.number ⟨2,0⟩)
        (AST.binary '*' (AST.number ⟨3,0⟩) (AST.number ⟨4,0⟩))) ∧
    (∀ ctx : Context,
      evalAst (AST.binary '+' (AST.number ⟨2,0⟩)
        (AST.binary '*' (AST.number ⟨3,0⟩) (AST.number ⟨4,0⟩))) ctx =
      .ok (some 14)) ∧
    parse (tokenize ("(2+3)*4")) =
      .ok (AST.binary '*' (AST.binary '+' (AST.number ⟨2,0⟩) (AST.number ⟨3,0⟩))
        (AST.number ⟨4,0⟩)) ∧
    (∀ ctx : Context,
      evalAst (AST.binary '*' (AST.binary '+' (AST.number ⟨2,0⟩) (AST.number ⟨3,0⟩))
        (AST.number ⟨4,0⟩)) ctx = .ok (some 20)) ∧
    parse (tokenize ("-2*3")) =
      .ok (AST.binary '*' (AST.unary '-' (AST.number ⟨2,0⟩)) (AST.number ⟨3,0⟩)) ∧
    (∀ ctx : Context,
      evalAst (AST.binary '*' (AST.unary '-' (AST.number ⟨2,0⟩))
        (AST.number ⟨3,0⟩)) ctx = .ok (some (-6))) ∧
    parse (tokenize ("-4/2*3")) =
      .ok (AST.binary '*'
        (AST.binary '/' (AST.unary '-' (AST.number ⟨4,0⟩)) (AST.number ⟨2,0⟩))
        (AST.number ⟨3,0⟩)) ∧
    (∀ ctx : Context,
      evalAst (AST.binary '*'
        (AST.binary '/' (AST.unary '-' (AST.number ⟨4,0⟩)) (AST.number ⟨2,0⟩))
        (AST.number ⟨3,0⟩)) ctx = .ok (some (-6))) := by
  refine ⟨fun a b c => rfl, fun a b c => rfl, fun a b c => rfl, fun a b => rfl,
    rfl, ?_, rfl, ?_, rfl, ?_, rfl, ?_⟩
  · intro ctx
    simp [evalAst, jsAdd, jsMul, Decimal.toReal]
    norm_num
  · intro ctx
    simp [evalAst, jsAdd, jsMul, Decimal.toReal]
    norm_num
  · intro ctx
    simp [evalAst, jsNeg, jsMul, Decimal.toReal]
    norm_num
  · intro ctx
    simp [evalAst, jsNeg, jsMul, jsDiv, Decimal.toReal]
    norm_num

/-- C5: a division whose evaluated right operand is zero fails with the
division-by-zero evaluation error and never returns a value; in particular
the formula `"5/0"` fails that way through the public entry point for every
servo id and landmark context. -/
theorem division_by_zero_fails (l r : AST) (ctx : Context) (vl : JsNumber)
    (hl : evalAst l ctx = .ok vl) (hr : evalAst r ctx = .ok (some 0)) :
    evalAst (AST.binary '/' l r) ctx = .error .divisionByZero ∧
    (∀ v : JsNumber, evalAst (AST.binary '/' l r) ctx ≠ .ok v) ∧
    (∀ (id : ℤ) (lms : Option (List Landmark)),
      FormulaParser.evaluate id ("5/0") lms = .error .divisionByZero) := by
  have h1 : evalAst (AST.binary '/' l r) ctx = .error .divisionByZero := by
    simp [evalAst, hl, hr]
  refine ⟨h1, ?_, ?_⟩
  · intro v
    rw [h1]
    exact fun hh => Except.noConfusion hh
  · intro id lms
    have hparse : parse (tokenize ("5/0")) =
        .ok (AST.binary '/' (AST.number ⟨5,0⟩) (AST.number ⟨0,0⟩)) := rfl
    have he : evalAst (AST.binary '/' (AST.number ⟨5,0⟩) (AST.number ⟨0,0⟩))
        ⟨lms⟩ = .error .divisionByZero := by
      simp [evalAst, Decimal.toReal]
    rw [evaluate_eq id ("5/0") lms (by decide) _ hparse, he]

/-- Witness for C5 at `(1)/(0)` in the empty context. -/
theorem division_by_zero_fails_witness :
    evalAst (AST.binary '/' (AST.number ⟨1,0⟩) (AST.number ⟨0,0⟩)) ⟨none⟩ =
    .error .divisionByZero :=
  (division_by_zero_fails (AST.number ⟨1,0⟩) (AST.number ⟨0,0⟩) ⟨none⟩
    (some (Decimal.toReal ⟨1,0⟩)) (by simp [evalAst])
    (by simp [evalAst, Decimal.toReal])).1

/-- C7: `validate` is true exactly for formulas that are non-blank and
tokenize + parse; it never evaluates, so the bare unknown variable `"foo"`
validates although evaluating it fails; `validate ""` is false while
`getErrorMessage ""` is the message "Empty formula"; and `getErrorMessage`
is `none` on non-blank parseable input. -/
theorem validate_grammar_only :
    (∀ f : String, FormulaParser.validate f = true ↔
      (jsTrimEmpty f = false ∧ ∃ ast, parse (tokenize f) = .ok ast)) ∧
    FormulaParser.validate ("foo") = true ∧
    (∀ ctx : Context,
      evalAst (AST.var ("foo")) ctx = .error (.unknownVariable ("foo"))) ∧
    FormulaParser.validate ("") = false ∧
    FormulaParser.getErrorMessage ("") = some ("Empty formula") ∧
    (∀ f : String, jsTrimEmpty f = false →
      (∃ ast, parse (tokenize f) = .ok ast) →
      FormulaParser.getErrorMessage f = none) := by
  refine ⟨?_, by decide, ?_, by decide, by decide, ?_⟩
  · intro f
    unfold FormulaParser.validate
    cases hb : jsTrimEmpty f with
    | true => simp [hb]
    | false =>
      simp only [hb, Bool.false_eq_true, if_false]
      cases hp : parse (tokenize f) with
      | ok ast => simp [hp]
      | error e => simp [hp]
  · intro ctx
    have h : evalAst (AST.var ("foo")) ctx = getVariableValue ("foo") ctx := by
      simp [evalAst]
    rw [h]
    rfl
  · intro f h1 h2
    obtain ⟨ast, hast⟩ := h2
    unfold FormulaParser.getErrorMessage
    simp [h1, hast]

/-- Witness for C7: `getErrorMessage "1+2"` is `none`. -/
theorem validate_grammar_only_witness :
    FormulaParser.getErrorMessage ("1+2") = none :=
  validate_grammar_only.2.2.2.2.2 ("1+2") (by decide)
    ⟨AST.binary '+' (AST.number ⟨1,0⟩) (AST.number ⟨2,0⟩), rfl⟩

/-- C9: `tokenize` is a total function that first strips all whitespace
(tokenizing a string equals tokenizing its whitespace-stripped form), and any
leading character that is not a digit, an operator, a letter (the start of an
identifier) or a comma is skipped, contributing no token. -/
theorem tokenize_total_and_skips :
    (∀ s : String,
      tokenize s = tokenize ⟨s.data.filter (fun ch => ¬ isJsWhitespace ch)⟩) ∧
    (∀ (fuel : ℕ) (c : Char) (rest : List Char), c.isDigit = false →
      ¬(c = '+' ∨ c = '-' ∨ c = '*' ∨ c = '/' ∨ c = '(' ∨ c = ')') →
      c.isAlpha = false → c ≠ ',' →
      tokenizeLoop (fuel + 1) (c :: rest) = tokenizeLoop fuel rest) := by
  constructor
  · intro s
    unfold tokenize
    have hff : (s.data.filter (fun ch => ¬ isJsWhitespace ch)).filter
        (fun ch => ¬ isJsWhitespace ch) =
        s.data.filter (fun ch => ¬ isJsWhitespace ch) := by
      rw [List.filter_filter]
      congr 1
      funext ch
      cases isJsWhitespace ch <;> rfl
    simp only [String.data]
    rw [hff]
  · intro fuel c rest h1 h2 h3 h4
    show (if c.isDigit = true then _ else _) = _
    rw [if_neg (by simp [h1]), if_neg h2, if_neg (by simp [h3]), if_neg h4]

/-- Witness for C9: the unrecognized character `#` is skipped. -/
theorem tokenize_total_and_skips_witness :
    tokenizeLoop 2 ['#', '1'] = tokenizeLoop 1 ['1'] :=
  tokenize_total_and_skips.2 1 '#' ['1'] (by decide) (by decide) (by decide)
    (by decide)

open Classical in
/-- A landmark id below 0 or above 20 yields no landmark, in any context. -/
theorem getLandmark_out_of_range (ctx : Context) (r : ℝ)
    (hr : r < 0 ∨ 20 < r) : getLandmark (some r) ctx = none := by
  rcases ctx with ⟨_ | ls⟩
  · rfl
  · show (if jsLt (some r) (some 0) ∨ jsLt (some 20) (some r) then none
      else jsIndex ls (some r)) = none
    rcases hr with h | h
    · exact if_pos (Or.inl ((jsLt_some_some _ _).mpr h))
    · exact if_pos (Or.inr ((jsLt_some_some _ _).mpr h))

/-- Without a landmark array every lookup yields no landmark. -/
theorem getLandmark_absent (id : JsNumber) (ctx : Context)
    (h : ctx.landmarks = none) : getLandmark id ctx = none := by
  rcases ctx with ⟨l⟩
  have hl : l = none := h
  subst hl
  rfl

open Classical in
/-- An id in `[0, 20]` that is no natural number yields no landmark. -/
theorem getLandmark_not_int (ctx : Context) (r : ℝ) (h0 : 0 ≤ r)
    (h20 : r ≤ 20) (hn : ¬ ∃ n : ℕ, (n : ℝ) = r) :
    getLandmark (some r) ctx = none := by
  rcases ctx with ⟨_ | ls⟩
  · rfl
  · show (if jsLt (some r) (some 0) ∨ jsLt (some 20) (some r) then none
      else jsIndex ls (some r)) = none
    rw [if_neg, jsIndex_not_int ls r hn]
    rintro (h | h)
    · exact absurd ((jsLt_some_some _ _).mp h) (not_lt.mpr h0)
    · exact absurd ((jsLt_some_some _ _).mp h) (not_lt.mpr h20)

/-- The function `distance` fails with the invalid-landmark error when its first evaluated
id finds no landmark (and the second argument itself evaluates). -/
theorem distance_invalid_first (ctx : Context) (e1 e2 : AST) (v1 v2 : JsNumber)
    (h1 : evalAst e1 ctx = .ok v1) (h2 : evalAst e2 ctx = .ok v2)
    (hg : getLandmark v1 ctx = none) :
    evalAst (AST.function ("distance") [e1, e2]) ctx =
      .error .invalidLandmark := by
  simp [evalAst, evalArgs, h1, h2, hg]

/-- The function `distance` fails with the invalid-landmark error when its second
evaluated id finds no landmark. -/
theorem distance_invalid_second (ctx : Context) (e1 e2 : AST) (v1 v2 : JsNumber)
    (h1 : evalAst e1 ctx = .ok v1) (h2 : evalAst e2 ctx = .ok v2)
    (hg : getLandmark v2 ctx = none) :
    evalAst (AST.function ("distance") [e1, e2]) ctx =
      .error .invalidLandmark := by
  cases hg1 : getLandmark v1 ctx <;> simp [evalAst, evalArgs, h1, h2, hg, hg1]

/-- C6: a landmark access with an id outside `[0, 20]` — through the variable
syntaxes or through `distance` ids — or any access without a landmark array,
fails with the invalid-landmark error and never yields a default landmark; in
particular `distance(0, 25)` fails that way in every context. -/
theorem invalid_landmark_errors :
    (∀ (ctx : Context) (r : ℝ), (r < 0 ∨ 20 < r) →
      getLandmark (some r) ctx = none) ∧
    (∀ (id : JsNumber) (ctx : Context), ctx.landmarks = none →
      getLandmark id ctx = none) ∧
    (∀ ctx : Context,
      evalAst (AST.function ("distance") [AST.number ⟨0,0⟩, AST.number ⟨25,0⟩])
        ctx = .error .invalidLandmark) ∧
    (∀ (ctx : Context) (name : String) (n : ℕ) (a : Char),
      matchCoordDot name.data = some (n, a) → 20 < n →
      evalAst (AST.var name) ctx = .error .invalidLandmark) ∧
    (∀ (ctx : Context) (name : String) (n : ℕ) (a : Char),
      matchCoordDot name.data = none →
      matchAxisBracket name.data = some (a, n) → 20 < n →
      evalAst (AST.var name) ctx = .error .invalidLandmark) ∧
    (∀ (name : String) (n : ℕ) (a : Char),
      matchCoordDot name.data = some (n, a) →
      evalAst (AST.var name) ⟨none⟩ = .error .invalidLandmark) ∧
    (∀ (e1 e2 : AST) (v1 v2 : JsNumber),
      evalAst e1 ⟨none⟩ = .ok v1 → evalAst e2 ⟨none⟩ = .ok v2 →
      evalAst (AST.function ("distance") [e1, e2]) ⟨none⟩ =
        .error .invalidLandmark) := by
  refine ⟨getLandmark_out_of_range, fun id ctx h => getLandmark_absent id ctx h,
    ?_, ?_, ?_, ?_, ?_⟩
  · intro ctx
    have h25 : getLandmark (some (Decimal.toReal ⟨25,0⟩)) ctx = none :=
      getLandmark_out_of_range ctx _ (Or.inr (by norm_num [Decimal.toReal]))
    exact distance_invalid_second ctx _ _ (some (Decimal.toReal ⟨0,0⟩))
      (some (Decimal.toReal ⟨25,0⟩)) (by simp [evalAst]) (by simp [evalAst]) h25
  · intro ctx name n a hm hn
    have hg : getLandmark (some (n : ℝ)) ctx = none :=
      getLandmark_out_of_range ctx _ (Or.inr (by exact_mod_cast hn))
    simp [evalAst, getVariableValue, hm, hg]
  · intro ctx name n a hm1 hm2 hn
    have hg : getLandmark (some (n : ℝ)) ctx = none :=
      getLandmark_out_of_range ctx _ (Or.inr (by exact_mod_cast hn))
    simp [evalAst, getVariableValue, hm1, hm2, hg]
  · intro name n a hm
    have hg : getLandmark (some (n : ℝ)) ⟨none⟩ = none :=
      getLandmark_absent _ _ rfl
    simp [evalAst, getVariableValue, hm, hg]
  · intro e1 e2 v1 v2 h1 h2
    exact distance_invalid_first _ _ _ v1 v2 h1 h2 (getLandmark_absent _ _ rfl)

/-- Witness for C6: `getLandmark` at id 25 in the empty context. -/
theorem invalid_landmark_errors_witness :
    getLandmark (some 25) ⟨none⟩ = none :=
  invalid_landmark_errors.1 ⟨none⟩ 25 (Or.inr (by norm_num))

/-- C10: a numeric landmark id inside `[0, 20]` that is not an integer finds
no landmark and evaluation fails with the invalid-landmark error — the id is
never truncated or rounded; in particular `distance(1.5, 2)` and
`distance(3/2, 2)` fail in every context. -/
theorem fractional_landmark_id :
    (∀ (ctx : Context) (r : ℝ), 0 ≤ r → r ≤ 20 → (¬ ∃ n : ℕ, (n : ℝ) = r) →
      getLandmark (some r) ctx = none) ∧
    (∀ ctx : Context,
      evalAst (AST.function ("distance") [AST.number ⟨15,1⟩, AST.number ⟨2,0⟩])
        ctx = .error .invalidLandmark) ∧
    (∀ ctx : Context,
      evalAst (AST.function ("distance")
        [AST.binary '/' (AST.number ⟨3,0⟩) (AST.number ⟨2,0⟩),
         AST.number ⟨2,0⟩]) ctx = .error .invalidLandmark) := by
  refine ⟨getLandmark_not_int, ?_, ?_⟩
  · intro ctx
    have hr : Decimal.toReal ⟨15,1⟩ = 3 / 2 := by norm_num [Decimal.toReal]
    have hg : getLandmark (some (Decimal.toReal ⟨15,1⟩)) ctx = none := by
      rw [hr]
      exact getLandmark_not_int ctx _ (by norm_num) (by norm_num)
        not_exists_nat_eq_three_halves
    exact distance_invalid_first ctx _ _ (some (Decimal.toReal ⟨15,1⟩))
      (some (Decimal.toReal ⟨2,0⟩)) (by simp [evalAst]) (by simp [evalAst]) hg
  · intro ctx
    have hdiv : evalAst (AST.binary '/' (AST.number ⟨3,0⟩) (AST.number ⟨2,0⟩))
        ctx = .ok (some (3 / 2)) := by
      simp [evalAst, jsDiv, Decimal.toReal]
    have hg : getLandmark (some ((3 : ℝ) / 2)) ctx = none :=
      getLandmark_not_int ctx _ (by norm_num) (by norm_num)
        not_exists_nat_eq_three_halves
    exact distance_invalid_first ctx _ _ (some ((3 : ℝ) / 2))
      (some (Decimal.toReal ⟨2,0⟩)) hdiv (by simp [evalAst]) hg

/-- Witness for C10: id `3 / 2` finds no landmark in the empty context. -/
theorem fractional_landmark_id_witness :
    getLandmark (some ((3 : ℝ) / 2)) ⟨none⟩ = none :=
  fractional_landmark_id.1 ⟨none⟩ (3 / 2) (by norm_num) (by norm_num)
    not_exists_nat_eq_three_halves

/-- C8: when both landmarks resolve, `distance` returns the Euclidean
distance `sqrt(dx^2 + dy^2 + dz^2)` of the 3D coordinates, is symmetric in
its two arguments, and is zero exactly when the two landmarks coincide in
3D. -/
theorem distance_symmetric_euclidean (ctx : Context) (e1 e2 : AST)
    (a b : JsNumber) (l1 l2 : Landmark)
    (h1 : evalAst e1 ctx = .ok a) (h2 : evalAst e2 ctx = .ok b)
    (hg1 : getLandmark a ctx = some l1) (hg2 : getLandmark b ctx = some l2) :
    evalAst (AST.function ("distance") [e1, e2]) ctx =
      .ok (some (Real.sqrt ((l1.x3D - l2.x3D) ^ 2 + (l1.y3D - l2.y3D) ^ 2 +
        (l1.z3D - l2.z3D) ^ 2))) ∧
    evalAst (AST.function ("distance") [e1, e2]) ctx =
      evalAst (AST.function ("distance") [e2, e1]) ctx ∧
    (calculateDistance l1 l2 = 0 ↔
      (l1.x3D = l2.x3D ∧ l1.y3D = l2.y3D ∧ l1.z3D = l2.z3D)) := by
  have hsq : ∀ p q : Landmark, calculateDistance p q =
      Real.sqrt ((p.x3D - q.x3D) ^ 2 + (p.y3D - q.y3D) ^ 2 +
        (p.z3D - q.z3D) ^ 2) := by
    intro p q
    unfold calculateDistance
    congr 1
    ring
  refine ⟨?_, ?_, ?_⟩
  · have := hsq l1 l2
    simp [evalAst, evalArgs, h1, h2, hg1, hg2, this]
  · have hsym : calculateDistance l1 l2 = calculateDistance l2 l1 := by
      unfold calculateDistance
      congr 1
      ring
    simp [evalAst, evalArgs, h1, h2, hg1, hg2, hsym]
  · rw [hsq l1 l2, Real.sqrt_eq_zero']
    constructor
    · intro h
      refine ⟨?_, ?_, ?_⟩ <;>
        nlinarith [sq_nonneg (l1.x3D - l2.x3D), sq_nonneg (l1.y3D - l2.y3D),
          sq_nonneg (l1.z3D - l2.z3D)]
    · rintro ⟨hx, hy, hz⟩
      rw [hx, hy, hz]
      ring_nf
      norm_num

/-- Witness for C8: a two-landmark context with a 3-4-5 separation. -/
theorem distance_symmetric_euclidean_witness :
    evalAst (AST.function ("distance") [AST.number ⟨0,0⟩, AST.number ⟨1,0⟩])
      ⟨some [⟨0,0,0,0,0,0⟩, ⟨0,0,0,3,4,0⟩]⟩ =
    .ok (some (Real.sqrt (((0:ℝ) - 3) ^ 2 + ((0:ℝ) - 4) ^ 2 +
      ((0:ℝ) - 0) ^ 2))) :=
  (distance_symmetric_euclidean ⟨some [⟨0,0,0,0,0,0⟩, ⟨0,0,0,3,4,0⟩]⟩
    (AST.number ⟨0,0⟩) (AST.number ⟨1,0⟩)
    (some (Decimal.toReal ⟨0,0⟩)) (some (Decimal.toReal ⟨1,0⟩))
    ⟨0,0,0,0,0,0⟩ ⟨0,0,0,3,4,0⟩ (by simp [evalAst]) (by simp [evalAst])
    (by rw [show Decimal.toReal ⟨0,0⟩ = ((0 : ℕ) : ℝ) by
          norm_num [Decimal.toReal],
        getLandmark_nat _ _ 0 rfl (by norm_num)]
        rfl)
    (by rw [show Decimal.toReal ⟨1,0⟩ = ((1 : ℕ) : ℝ) by
          norm_num [Decimal.toReal],
        getLandmark_nat _ _ 1 rfl (by norm_num)]
        rfl)).1

/-- Rounding is monotone. -/
theorem round_le_round (x y : ℝ) (h : x ≤ y) : round x ≤ round y := by
  rw [round_eq, round_eq]
  exact Int.floor_mono (by linarith)

/-- The code value of `rotation` on the mixed-coordinate palm triangle:
the display coordinates give the normal `(0, -1, 0)`, hence angle 0. -/
theorem rotation_mixed :
    rotation landmarkO landmarkB landmarkC ⟨0, -1, 0⟩ = some 0 := by
  have hcross : crossProduct (toVector landmarkO landmarkB)
      (toVector landmarkO landmarkC) = ⟨0, -1, 0⟩ := by
    simp [crossProduct, toVector, landmarkO, landmarkB, landmarkC]
  have hnorm : normalize (⟨0, -1, 0⟩ : Vec) = some ⟨0, -1, 0⟩ := by
    show (if Real.sqrt ((0:ℝ) ^ 2 + (-1) ^ 2 + 0 ^ 2) = 0 then (none : Option Vec)
      else some (⟨0 / Real.sqrt ((0:ℝ) ^ 2 + (-1) ^ 2 + 0 ^ 2),
        -1 / Real.sqrt ((0:ℝ) ^ 2 + (-1) ^ 2 + 0 ^ 2),
        0 / Real.sqrt ((0:ℝ) ^ 2 + (-1) ^ 2 + 0 ^ 2)⟩ : Vec)) =
      some (⟨0, -1, 0⟩ : Vec)
    rw [show (0:ℝ) ^ 2 + (-1) ^ 2 + 0 ^ 2 = 1 by norm_num, Real.sqrt_one]
    norm_num
  show (match normalize (crossProduct (toVector landmarkO landmarkB)
      (toVector landmarkO landmarkC)) with
    | none => (none : JsNumber)
    | some normal =>
      some (Real.arccos (dotProduct normal ⟨0, -1, 0⟩) * (180 / Real.pi))) =
    some 0
  rw [hcross, hnorm]
  show some (Real.arccos (dotProduct ⟨0, -1, 0⟩ ⟨0, -1, 0⟩) * (180 / Real.pi)) =
    some 0
  rw [show dotProduct ⟨0, -1, 0⟩ ⟨0, -1, 0⟩ = 1 by norm_num [dotProduct]]
  rw [Real.arccos_one]
  norm_num

/-- The spec-side value on the same triangle: the 3D metric coordinates give
the normal `(0, 1, 0)`, hence angle 180. -/
theorem rotationY3DSpec_mixed :
    rotationY3DSpec landmarkO landmarkB landmarkC = 180 := by
  unfold rotationY3DSpec
  simp only [landmarkO, landmarkB, landmarkC, crossProduct, dotProduct]
  norm_num
  field_simp

/-- On the fully degenerate triangle `rotation` is `NaN`: the cross product
is the zero vector, `normalize` divides by zero. -/
theorem rotation_degenerate :
    rotation degenerateLandmark degenerateLandmark degenerateLandmark
      ⟨0, -1, 0⟩ = none := by
  simp [rotation, toVector, crossProduct, normalize, degenerateLandmark]

/-- Landmark lookup in `mixedLandmarks` at id 0. -/
theorem mixed_lookup_0 :
    getLandmark (some (Decimal.toReal ⟨0,0⟩)) ⟨some mixedLandmarks⟩ =
      some landmarkO := by
  rw [show Decimal.toReal ⟨0,0⟩ = ((0 : ℕ) : ℝ) by norm_num [Decimal.toReal],
    getLandmark_nat _ _ 0 rfl (by norm_num)]
  rfl

/-- Landmark lookup in `mixedLandmarks` at id 1. -/
theorem mixed_lookup_1 :
    getLandmark (some (Decimal.toReal ⟨1,0⟩)) ⟨some mixedLandmarks⟩ =
      some landmarkB := by
  rw [show Decimal.toReal ⟨1,0⟩ = ((1 : ℕ) : ℝ) by norm_num [Decimal.toReal],
    getLandmark_nat _ _ 1 rfl (by norm_num)]
  rfl

/-- Landmark lookup in `mixedLandmarks` at id 2. -/
theorem mixed_lookup_2 :
    getLandmark (some (Decimal.toReal ⟨2,0⟩)) ⟨some mixedLandmarks⟩ =
      some landmarkC := by
  rw [show Decimal.toReal ⟨2,0⟩ = ((2 : ℕ) : ℝ) by norm_num [Decimal.toReal],
    getLandmark_nat _ _ 2 rfl (by norm_num)]
  rfl

/-- Landmark lookup in `degenerateLandmarks` at ids 0, 1 and 2. -/
theorem degenerate_lookup :
    getLandmark (some (Decimal.toReal ⟨0,0⟩)) ⟨some degenerateLandmarks⟩ =
      some degenerateLandmark ∧
    getLandmark (some (Decimal.toReal ⟨1,0⟩)) ⟨some degenerateLandmarks⟩ =
      some degenerateLandmark ∧
    getLandmark (some (Decimal.toReal ⟨2,0⟩)) ⟨some degenerateLandmarks⟩ =
      some degenerateLandmark := by
  refine ⟨?_, ?_, ?_⟩
  · rw [show Decimal.toReal ⟨0,0⟩ = ((0 : ℕ) : ℝ) by norm_num [Decimal.toReal],
      getLandmark_nat _ _ 0 rfl (by norm_num)]
    rfl
  · rw [show Decimal.toReal ⟨1,0⟩ = ((1 : ℕ) : ℝ) by norm_num [Decimal.toReal],
      getLandmark_nat _ _ 1 rfl (by norm_num)]
    rfl
  · rw [show Decimal.toReal ⟨2,0⟩ = ((2 : ℕ) : ℝ) by norm_num [Decimal.toReal],
      getLandmark_nat _ _ 2 rfl (by norm_num)]
    rfl

/-- Counterexample for C1: on a context of 21 landmarks whose display and 3D
coordinates differ, `rotationY(0,1,2)` evaluates to 0 degrees, while the
claim's 3D-coordinate formula gives 180 degrees: the code reads the `x, y, z`
display fields, not `x3D, y3D, z3D`. -/
theorem rotationY_3d_claim_false :
    evalAst (AST.function ("rotationY")
      [AST.number ⟨0,0⟩, AST.number ⟨1,0⟩, AST.number ⟨2,0⟩])
      ⟨some mixedLandmarks⟩ = .ok (some 0) ∧
    rotationY3DSpec landmarkO landmarkB landmarkC = 180 ∧
    (0 : ℝ) ≠ 180 := by
  refine ⟨?_, rotationY3DSpec_mixed, by norm_num⟩
  simp [evalAst, evalArgs, mixed_lookup_0, mixed_lookup_1, mixed_lookup_2,
    rotation_mixed]

/-- C1 (amended): with three resolved landmarks, `rotationY` returns the
source `rotation` of them against the fixed direction `(0, -1, 0)`; the edge
vectors are built from the display fields `x, y, z`; and the result is
`acos(dot(normal, (0,-1,0))) * 180 / pi` for the normalized cross product
when that normalization exists, `NaN` when the cross product is the zero
vector. -/
theorem rotationY_display_coords (ctx : Context) (e1 e2 e3 : AST)
    (a b c : JsNumber) (l1 l2 l3 : Landmark)
    (h1 : evalAst e1 ctx = .ok a) (h2 : evalAst e2 ctx = .ok b)
    (h3 : evalAst e3 ctx = .ok c)
    (hg1 : getLandmark a ctx = some l1) (hg2 : getLandmark b ctx = some l2)
    (hg3 : getLandmark c ctx = some l3) :
    evalAst (AST.function ("rotationY") [e1, e2, e3]) ctx =
      .ok (rotation l1 l2 l3 ⟨0, -1, 0⟩) ∧
    toVector l1 l2 = ⟨l2.x - l1.x, l2.y - l1.y, l2.z - l1.z⟩ ∧
    (normalize (crossProduct (toVector l1 l2) (toVector l1 l3)) = none →
      rotation l1 l2 l3 ⟨0, -1, 0⟩ = none) ∧
    (∀ nv : Vec,
      normalize (crossProduct (toVector l1 l2) (toVector l1 l3)) = some nv →
      rotation l1 l2 l3 ⟨0, -1, 0⟩ =
        some (Real.arccos (dotProduct nv ⟨0, -1, 0⟩) * (180 / Real.pi))) := by
  refine ⟨?_, rfl, ?_, ?_⟩
  · simp [evalAst, evalArgs, h1, h2, h3, hg1, hg2, hg3]
  · intro hn
    show (match normalize (crossProduct (toVector l1 l2) (toVector l1 l3)) with
      | none => (none : JsNumber)
      | some normal =>
        some (Real.arccos (dotProduct normal ⟨0, -1, 0⟩) * (180 / Real.pi))) =
      none
    rw [hn]
  · intro nv hn
    show (match normalize (crossProduct (toVector l1 l2) (toVector l1 l3)) with
      | none => (none : JsNumber)
      | some normal =>
        some (Real.arccos (dotProduct normal ⟨0, -1, 0⟩) * (180 / Real.pi))) =
      some (Real.arccos (dotProduct nv ⟨0, -1, 0⟩) * (180 / Real.pi))
    rw [hn]

/-- Witness for C1 (amended) on the mixed-coordinate context at ids
0, 1, 2. -/
theorem rotationY_display_coords_witness :
    evalAst (AST.function ("rotationY")
      [AST.number ⟨0,0⟩, AST.number ⟨1,0⟩, AST.number ⟨2,0⟩])
      ⟨some mixedLandmarks⟩ =
    .ok (rotation landmarkO landmarkB landmarkC ⟨0, -1, 0⟩) :=
  (rotationY_display_coords ⟨some mixedLandmarks⟩
    (AST.number ⟨0,0⟩) (AST.number ⟨1,0⟩) (AST.number ⟨2,0⟩)
    (some (Decimal.toReal ⟨0,0⟩)) (some (Decimal.toReal ⟨1,0⟩))
    (some (Decimal.toReal ⟨2,0⟩)) landmarkO landmarkB landmarkC
    (by simp [evalAst]) (by simp [evalAst]) (by simp [evalAst])
    mixed_lookup_0 mixed_lookup_1 mixed_lookup_2).1

/-- Counterexample for C2: on the degenerate 21-landmark context the formula
`rotationY(0,1,2)` makes the public `evaluate` return `NaN` (`some`-free
`Option ℤ`, not an error and not an integer): `NaN` crosses the public
boundary. -/
theorem evaluate_nan_crosses_boundary :
    FormulaParser.evaluate 1 ("rotationY(0,1,2)") (some degenerateLandmarks) =
      .ok none := by
  have hparse : parse (tokenize ("rotationY(0,1,2)")) =
      .ok (AST.function ("rotationY")
        [AST.number ⟨0,0⟩, AST.number ⟨1,0⟩, AST.number ⟨2,0⟩]) := rfl
  rw [evaluate_eq 1 ("rotationY(0,1,2)") (some degenerateLandmarks) (by decide)
    _ hparse]
  have heval : evalAst (AST.function ("rotationY")
      [AST.number ⟨0,0⟩, AST.number ⟨1,0⟩, AST.number ⟨2,0⟩])
      ⟨some degenerateLandmarks⟩ = .ok none := by
    simp [evalAst, evalArgs, degenerate_lookup.1, degenerate_lookup.2.1,
      degenerate_lookup.2.2, rotation_degenerate]
  rw [heval]

/-- C2 (amended): every `some` value returned by the public `evaluate` is an
integer within `[MIN_SERVO_VALUE, max]`, with `max = 4095` for servo id 11
and `max = MAX_SERVO_VALUE = 1023` otherwise; and whenever the raw
evaluation yields an ordinary number `r`, the returned value is exactly
`round` of `r` clamped to that range.  (A raw `NaN` — possible only through
a degenerate `rotationY` — is returned as `NaN` rather than an error or an
in-range integer, which is the single exception the counterexample
exhibits.) -/
theorem evaluate_clamps_and_rounds :
    (∀ (id : ℤ) (f : String) (lms : Option (List Landmark)) (v : ℤ),
      FormulaParser.evaluate id f lms = .ok (some v) →
      0 ≤ v ∧ v ≤ (if id = 11 then 4095 else 1023)) ∧
    (∀ (id : ℤ) (f : String) (lms : Option (List Landmark)) (ast : AST)
      (r : ℝ),
      jsTrimEmpty f = false → parse (tokenize f) = .ok ast →
      evalAst ast ⟨lms⟩ = .ok (some r) →
      FormulaParser.evaluate id f lms =
        .ok (some (round (max MIN_SERVO_VALUE
          (min (if id = 11 then (4095 : ℝ) else MAX_SERVO_VALUE) r))))) := by
  constructor
  · intro id f lms v h
    by_cases hb : jsTrimEmpty f = true
    · unfold FormulaParser.evaluate at h
      rw [if_pos hb] at h
      exact absurd h (by simp)
    · have hb' : jsTrimEmpty f = false := by simpa using hb
      cases hp : parse (tokenize f) with
      | error e =>
        unfold FormulaParser.evaluate at h
        rw [if_neg (by simp [hb']), hp] at h
        exact absurd h (by simp)
      | ok ast =>
        rw [evaluate_eq id f lms hb' ast hp] at h
        cases he : evalAst ast ⟨lms⟩ with
        | error e =>
          rw [he] at h
          exact absurd h (by simp)
        | ok result =>
          cases result with
          | none =>
            rw [he] at h
            exact absurd h (by simp)
          | some r =>
            rw [he] at h
            simp only [Except.ok.injEq, Option.some.injEq] at h
            subst h
            have hcap0 : (0 : ℝ) ≤ (if id = 11 then (4095 : ℝ) else MAX_SERVO_VALUE) := by
              split <;> norm_num [MAX_SERVO_VALUE]
            constructor
            · have h0 : (0 : ℝ) ≤ max MIN_SERVO_VALUE
                  (min (if id = 11 then (4095 : ℝ) else MAX_SERVO_VALUE) r) := by
                simp [MIN_SERVO_VALUE]
              calc (0 : ℤ) = round (0 : ℝ) := round_zero.symm
                _ ≤ _ := round_le_round _ _ h0
            · have hle : max MIN_SERVO_VALUE
                  (min (if id = 11 then (4095 : ℝ) else MAX_SERVO_VALUE) r) ≤
                  (if id = 11 then (4095 : ℝ) else MAX_SERVO_VALUE) := by
                apply max_le
                · simp only [MIN_SERVO_VALUE]
                  exact hcap0
                · exact min_le_left _ _
              by_cases hid : id = 11
              · simp only [if_pos hid] at hle ⊢
                calc round (max MIN_SERVO_VALUE (min (4095 : ℝ) r)) ≤
                    round ((4095 : ℝ)) := round_le_round _ _ hle
                  _ = 4095 := by norm_num [round_eq, Int.floor_eq_iff]
              · simp only [if_neg hid] at hle ⊢
                calc round (max MIN_SERVO_VALUE (min MAX_SERVO_VALUE r)) ≤
                    round MAX_SERVO_VALUE := round_le_round _ _ hle
                  _ = 1023 := by
                    norm_num [MAX_SERVO_VALUE, round_eq, Int.floor_eq_iff]
  · intro id f lms ast r hb hp he
    rw [evaluate_eq id f lms hb ast hp, he]

/-- Witness for C2 (amended): the formula `"1500"` for servo 1 is clamped to
1023. -/
theorem evaluate_clamps_and_rounds_witness :
    FormulaParser.evaluate 1 ("1500") none = .ok (some 1023) := by
  have h := evaluate_clamps_and_rounds.2 1 ("1500") none (AST.number ⟨1500,0⟩)
    (Decimal.toReal ⟨1500,0⟩) (by decide) rfl (by simp [evalAst])
  rw [h]
  have : Decimal.toReal ⟨1500,0⟩ = 1500 := by norm_num [Decimal.toReal]
  rw [this]
  norm_num [MIN_SERVO_VALUE, MAX_SERVO_VALUE, round_eq, Int.floor_eq_iff]

end RobotHand
